import Mathlib

/-!
# Verification of python-hddb: query builders, metadata catalog and schema operations

Shallow embedding of the `python_hddb` package:

* `models/params.py`   — `FetchParams` (with its pydantic field validators);
* `models/filters.py`  — `TextFilterType` / `FilterModel`;
* `utils/query_builders.py` — `is_doing_grouping`, `build_select_sql`,
  `build_where_sql`, `build_group_sql`, `build_order_sql`;
* `utils/helpers.py`   — `generate_field_id`, `generate_field_metadata`,
  `clean_dataframe`;
* `exceptions.py`      — the error taxonomy;
* `operations/table_operations.py` — transactional schema operations over an
  explicit engine-state model (committed state + open-transaction working state).

Python runtime features are made explicit: random suffixes and UUIDs become
function parameters, `IndexError` becomes `Option`/`Except`, machine-level
details of the embedded DuckDB engine are modelled as a small deterministic
state machine over the physical tables and the `hd_tables`/`hd_fields`
catalog relations.
-/

namespace PyHdDb

/-! ## models/filters.py -/

/-- `TextFilterType` enumeration from `models/filters.py`. -/
inductive TextFilterType where
  | equals | notEqual | contains | notContains
  | startsWith | endsWith | isNull | isNotNull
deriving Repr, DecidableEq

/-- `FilterModel` from `models/filters.py`: `{filterType, type, filter}`. -/
structure FilterModel where
  filterType : String
  type : TextFilterType
  filter : String
deriving Repr, DecidableEq

/-! ## models/params.py -/

/-- `FetchParams` from `models/params.py`.  `start_row`/`end_row` are Python
ints (arbitrary-precision integers), `sort` is `Optional[str]`,
`filter_model` an optional mapping column → filter, and the two grouping
lists are lists of strings.  Construction through pydantic validation is
modelled separately by `mkFetchParams`. -/
structure FetchParams where
  start_row : Int
  end_row : Int
  sort : Option String
  filter_model : Option (List (String × FilterModel))
  row_group_cols : List String
  group_keys : List String
deriving Repr, DecidableEq

/-- Pydantic construction of a `FetchParams`: field constraints
`start_row ≥ 0` (`ge=0`), `end_row > 0` (`gt=0`) and the
`end_row_must_be_greater_than_start_row` field validator.  A failed
validation rejects the value with a validation-error message; no
`FetchParams` value is produced.  This is a pure function: no engine
state (`Conn`/`DbState`) is consulted. -/
def mkFetchParams (start_row end_row : Int) (sort : Option String)
    (filter_model : Option (List (String × FilterModel)))
    (row_group_cols group_keys : List String) : Except String FetchParams :=
  if start_row < 0 then
    .error "start_row must be greater than or equal to 0"
  else if end_row ≤ 0 then
    .error "end_row must be greater than 0"
  else if end_row ≤ start_row then
    .error "end_row must be greater than start_row"
  else
    .ok { start_row := start_row, end_row := end_row, sort := sort,
          filter_model := filter_model, row_group_cols := row_group_cols,
          group_keys := group_keys }

/-! ## utils/query_builders.py -/

/-- `is_doing_grouping`: grouping is active exactly when
`len(row_group_cols) > len(group_keys)`. -/
def is_doing_grouping (params : FetchParams) : Bool :=
  params.row_group_cols.length > params.group_keys.length

/-- `build_select_sql`: when grouping, select a synthetic row key and the
next undrilled grouping column `row_group_cols[len(group_keys)]`
(the Python index is in bounds because grouping is active); otherwise
`SELECT *`. -/
def build_select_sql (params : FetchParams) : String :=
  if is_doing_grouping params then
    let row_group_col := params.row_group_cols.getD params.group_keys.length ""
    let cols_to_select := [row_group_col]
    "SELECT cast(uuid() as varchar) as rcd___id," ++ String.intercalate ", " cols_to_select
  else
    "SELECT *"

/-- One conjunct of the where clause: `"col" = 'key'` (Python f-string
`f"\"{...}\" = '{...}'"`). -/
def wherePart (col key : String) : String :=
  "\"" ++ col ++ "\" = \x27" ++ key ++ "\x27"

/-- The list comprehension of `build_where_sql`:
`["{row_group_cols[idx]}" = '{key}' for idx, key in enumerate(group_keys)]`.
Indexing `row_group_cols[idx]` past the end raises `IndexError`, modelled
as `none`. -/
def buildWhereParts (row_group_cols : List String) (group_keys : List String)
    (idx : Nat) : Option (List String) :=
  match group_keys with
  | [] => some []
  | key :: rest =>
    match row_group_cols.get? idx with
    | none => none
    | some col =>
      match buildWhereParts row_group_cols rest (idx + 1) with
      | none => none
      | some parts => some (wherePart col key :: parts)

/-- `build_where_sql`: empty when either list is empty; otherwise the
AND-conjunction of the per-level equalities, prefixed by `" WHERE "`
(the source prepends `" WHERE "` with a leading space).  `none` models
the `IndexError` raised when `group_keys` outruns `row_group_cols`. -/
def build_where_sql (params : FetchParams) : Option String :=
  if params.group_keys.isEmpty || params.row_group_cols.isEmpty then
    some ""
  else
    match buildWhereParts params.row_group_cols params.group_keys 0 with
    | none => none
    | some where_parts =>
      if where_parts.isEmpty then some ""
      else some (" WHERE " ++ String.intercalate " AND " where_parts)

/-- `build_group_sql`: `GROUP BY "col"` on the next undrilled grouping
column when grouping is active, else the empty string. -/
def build_group_sql (params : FetchParams) : String :=
  if is_doing_grouping params then
    let row_group_col := params.row_group_cols.getD params.group_keys.length ""
    "GROUP BY \"" ++ row_group_col ++ "\""
  else
    ""

/-- Python `s.split(",")`: split on every comma, keeping empty pieces
(character-level implementation so that proofs can evaluate it). -/
def splitCommaAux : List Char → List Char → List String
  | [], acc => [String.mk acc.reverse]
  | c :: rest, acc =>
    if c = ',' then String.mk acc.reverse :: splitCommaAux rest []
    else splitCommaAux rest (c :: acc)

/-- Python `s.split(",")` on a string. -/
def splitComma (s : String) : List String :=
  splitCommaAux s.data []

/-- Python `s.strip()`: drop whitespace from both ends. -/
def pyStrip (s : String) : String :=
  String.mk (((s.data.dropWhile Char.isWhitespace).reverse.dropWhile
    Char.isWhitespace).reverse)

/-- Python `part.split()[0]`: first whitespace-separated token of a string,
`none` when the string has no token (where Python raises `IndexError`). -/
def leadingWord (s : String) : Option String :=
  match s.data.dropWhile Char.isWhitespace with
  | [] => none
  | c :: rest => some (String.mk (c :: rest.takeWhile (fun ch => ¬ Char.isWhitespace ch)))

/-- The filter of `build_order_sql`:
`part.split()[0] in params.row_group_cols`. -/
def orderPartKept (row_group_cols : List String) (part : String) : Bool :=
  match leadingWord part with
  | some w => row_group_cols.contains w
  | none => false

/-- `build_order_sql`: empty when `sort` is falsy (`None` or `""`); when
grouping, split the sort expression on commas, strip each term, keep the
terms whose leading column name is among `row_group_cols`, and order by
the kept term at index `len(group_keys)` when the kept list is nonempty
and long enough; otherwise `ORDER BY` on the caller's expression
unmodified.  `none` models the `IndexError` raised by `part.split()[0]`
on a term that is empty after stripping. -/
def build_order_sql (params : FetchParams) : Option String :=
  match params.sort with
  | none => some ""
  | some sort =>
    if sort = "" then some ""
    else if is_doing_grouping params then
      let order_parts := (splitComma sort).map pyStrip
      if order_parts.all (fun part => (leadingWord part).isSome) then
        let filtered_parts := order_parts.filter (orderPartKept params.row_group_cols)
        if 0 < filtered_parts.length ∧ params.group_keys.length < filtered_parts.length then
          some ("ORDER BY " ++ filtered_parts.getD params.group_keys.length "")
        else
          some ("ORDER BY " ++ sort)
      else none
    else some ("ORDER BY " ++ sort)

/-! ## utils/helpers.py -/

/-- Characters allowed by the slug pattern `[^a-z0-9_]+` used in
`generate_field_id` (everything outside this set is a separator run). -/
def slugAllowed (c : Char) : Bool :=
  (Char.isLower c && Char.isAlpha c) || Char.isDigit c || c = '_'

/-- Collapse consecutive separator markers into one (the library's
duplicate-separator cleanup). -/
def collapseSep : List Char → List Char
  | [] => []
  | [c] => [c]
  | a :: b :: rest =>
    if a = '-' && b = '-' then collapseSep (b :: rest)
    else a :: collapseSep (b :: rest)

/-- The external `slugify(text, separator="_", regex_pattern=r"[^a-z0-9_]+")`
call of `generate_field_id`, modelled from its documented behaviour on the
labels this system handles: lower-case the text, replace each maximal run
of characters outside `[a-z0-9_]` by a single separator, strip separators
from both ends, and use `_` as the separator. -/
def slugify (s : String) : String :=
  let lowered := s.data.map Char.toLower
  let marked := lowered.map (fun c => if slugAllowed c then c else '-')
  let collapsed := collapseSep marked
  let stripped := (collapsed.dropWhile (fun c => c = '-')).reverse
    |>.dropWhile (fun c => c = '-') |>.reverse
  String.mk (stripped.map (fun c => if c = '-' then '_' else c))

/-- `generate_field_id` from `utils/helpers.py`.  The random suffix
(`random.choices(string.ascii_letters, k=6)`) is passed in explicitly as
`suffix`; the reserved row-key column name `"rcd___id"` is returned
unchanged. -/
def generate_field_id (column_name : String) (suffix : String) : String :=
  if column_name = "rcd___id" then "rcd___id"
  else slugify column_name ++ "_" ++ suffix

/-- Field metadata entry produced by `generate_field_metadata`:
`{fld___id, label, id}`. -/
structure FieldMeta where
  fld___id : String
  label : String
  id : String
deriving Repr, DecidableEq

/-- Worker for `generate_field_metadata`: one entry per column, in order;
`uuidAt i` and `suffixAt i` are the UUID and random suffix drawn for the
`i`-th column. -/
def generateFieldMetadataFrom (cols : List String) (i : Nat)
    (uuidAt suffixAt : Nat → String) : List FieldMeta :=
  match cols with
  | [] => []
  | c :: rest =>
    { fld___id := uuidAt i, label := c, id := generate_field_id c (suffixAt i) }
      :: generateFieldMetadataFrom rest (i + 1) uuidAt suffixAt

/-- `generate_field_metadata(df)`: one `{fld___id, label, id}` entry for
each column of the dataframe, in column order; the non-deterministic
draws (`uuid.uuid4()`, random suffixes) are supplied as functions. -/
def generate_field_metadata (cols : List String) (uuidAt suffixAt : Nat → String) :
    List FieldMeta :=
  generateFieldMetadataFrom cols 0 uuidAt suffixAt

/-- A dataframe cell before cleaning: either an actual string value, a
float missing value (`NaN`, whose `astype(str)` form is `"nan"`), or the
Python `None` object (whose `astype(str)` form is `"None"`). -/
inductive Cell where
  | text : String → Cell
  | floatNaN : Cell
  | noneVal : Cell
deriving Repr, DecidableEq

/-- `df.astype(str)` on one cell: the cell's string form. -/
def astypeStr : Cell → String
  | .text s => s
  | .floatNaN => "nan"
  | .noneVal => "None"

/-- The `replace({"nan": "", "NaN": "", "None": "", float("nan"): ""})`
step of `clean_dataframe` on an already stringified cell: exact-match
replacement of the three literals by the empty string (the `float("nan")`
key matches nothing after `astype(str)`). -/
def replaceMissing (s : String) : String :=
  if s = "nan" || s = "NaN" || s = "None" then "" else s

/-- `clean_dataframe` on one cell: stringify, then replace. -/
def cleanCell (c : Cell) : String :=
  replaceMissing (astypeStr c)

/-- `clean_dataframe(df)` on a grid of cells. -/
def clean_dataframe (df : List (List Cell)) : List (List String) :=
  df.map (fun row => row.map cleanCell)

/-! ## exceptions.py -/

/-- The exception classes defined in `exceptions.py` (each constructor is
one concrete class of the module). -/
inductive HdExcKind where
  | connectionError
  | queryError
  | tableError
  | tableExistsError
  | transactionError
  | validationError
  | dataTypeError
deriving Repr, DecidableEq

/-- A raised library exception: its class and its formatted message
(details dictionaries are folded into the message where they matter). -/
structure HdExc where
  kind : HdExcKind
  message : String
deriving Repr, DecidableEq

/-- `QueryError(message)`: prefixes `"Query Error: "`. -/
def queryErrorExc (message : String) : HdExc :=
  { kind := .queryError, message := "Query Error: " ++ message }

/-- `TableExistsError(table_name)`: a `TableError` subclass with message
`"Table Error: Table '{name}' already exists"`. -/
def tableExistsExc (table_name : String) : HdExc :=
  { kind := .tableExistsError,
    message := "Table Error: Table \x27" ++ table_name ++ "\x27 already exists" }

/-- The error taxonomy of spec section 7, stated in the spec's own words
(`ConnectionError`, `QueryError`, `TableExists`, `NotFound`,
`ValidationError`, `TransactionError`, `DataTypeError`).  Used to compare
the code's exception classes against the spec's taxonomy. -/
inductive SpecErrKind where
  | connectionE | queryE | tableExistsE | notFound
  | validationE | transactionE | dataTypeE
deriving Repr, DecidableEq

/-- Classification of the code's exception classes into the spec taxonomy:
each class maps to its namesake; the plain `TableError` base class falls
under `TableExists` (its only concrete subclass).  No class of
`exceptions.py` corresponds to the spec's `NotFound` entry. -/
def specKindOf : HdExcKind → SpecErrKind
  | .connectionError => .connectionE
  | .queryError => .queryE
  | .tableError => .tableExistsE
  | .tableExistsError => .tableExistsE
  | .transactionError => .transactionE
  | .validationError => .validationE
  | .dataTypeError => .dataTypeE

/-! ## operations/table_operations.py — engine-state model

The embedded DuckDB engine is modelled as a deterministic state machine:
a committed database state plus an optional open-transaction working
state.  `BEGIN TRANSACTION` snapshots the committed state, every
DDL/DML statement acts on the working state, `COMMIT` installs it, and
`ROLLBACK` discards it.  Statements report engine errors
(`duckdb.CatalogException` for catalog conflicts, a generic
`duckdb.Error` otherwise), which the operations translate into the
library's typed exceptions exactly as the `except` blocks do. -/

/-- A physical table: its column names and its number of rows. -/
structure PhysTable where
  cols : List String
  nrows : Int
deriving Repr, DecidableEq

/-- One `hd_tables` catalog row: `{id, label, nrow, ncol}`. -/
structure TableRow where
  id : String
  label : String
  nrow : Int
  ncol : Int
deriving Repr, DecidableEq

/-- One `hd_fields` catalog row: `{fld___id, id, label, tbl, type}`. -/
structure FieldRow where
  fld___id : String
  id : String
  label : String
  tbl : String
  type : String
deriving Repr, DecidableEq

/-- Database state: the physical tables (addressed by their qualified
name) and the two catalog relations. -/
structure DbState where
  phys : String → Option PhysTable
  hd_tables : List TableRow
  hd_fields : List FieldRow

/-- Engine-reported errors: `duckdb.CatalogException` or any other
`duckdb.Error`. -/
inductive EngErr where
  | catalog
  | generic
deriving Repr, DecidableEq

/-- A connection: durable committed state plus the working state of an
open transaction, if any. -/
structure Conn where
  committed : DbState
  txn : Option DbState

/-- The state a statement currently sees: the open transaction's working
state, else the committed state. -/
def Conn.working (c : Conn) : DbState :=
  c.txn.getD c.committed

/-- `BEGIN TRANSACTION;`. -/
def beginTxn (c : Conn) : Conn :=
  { c with txn := some c.working }

/-- `COMMIT;`. -/
def commitTxn (c : Conn) : Conn :=
  match c.txn with
  | some s => { committed := s, txn := none }
  | none => c

/-- `ROLLBACK;`. -/
def rollbackTxn (c : Conn) : Conn :=
  { c with txn := none }

/-- The qualified physical name `"{org}__{db}"."{tbl}"`. -/
def qualName (org db tbl : String) : String :=
  org ++ "__" ++ db ++ "." ++ tbl

/-- A single engine statement: transforms the working state or reports an
engine error. -/
def EngStep := DbState → Except EngErr DbState

/-- `CREATE TABLE name (cols…)`: `duckdb.CatalogException` when a table of
that name already exists. -/
def createPhysTable (name : String) (cols : List String) : EngStep := fun s =>
  match s.phys name with
  | some _ => .error .catalog
  | none => .ok { s with phys := fun n => if n = name then some { cols := cols, nrows := 0 } else s.phys n }

/-- `INSERT INTO name SELECT * FROM df`: loads `n` rows; fails when the
table is missing. -/
def insertPhysRows (name : String) (n : Int) : EngStep := fun s =>
  match s.phys name with
  | none => .error .generic
  | some t => .ok { s with phys := fun m => if m = name then some { t with nrows := t.nrows + n } else s.phys m }

/-- `DROP TABLE IF EXISTS name`: never fails. -/
def dropPhysTableIfExists (name : String) : EngStep := fun s =>
  .ok { s with phys := fun n => if n = name then none else s.phys n }

/-- `ALTER TABLE name ADD COLUMN col VARCHAR`: fails when the table is
missing or the column already exists. -/
def alterAddColumn (name col : String) : EngStep := fun s =>
  match s.phys name with
  | none => .error .catalog
  | some t =>
    if t.cols.contains col then .error .generic
    else .ok { s with phys := fun n => if n = name then some { t with cols := t.cols ++ [col] } else s.phys n }

/-- `ALTER TABLE name DROP COLUMN col`: fails when the table or the column
is missing. -/
def alterDropColumn (name col : String) : EngStep := fun s =>
  match s.phys name with
  | none => .error .catalog
  | some t =>
    if t.cols.contains col then
      .ok { s with phys := fun n => if n = name then some { t with cols := t.cols.filter (fun x => x ≠ col) } else s.phys n }
    else .error .generic

/-- `INSERT INTO hd_tables (id, label, nrow, ncol) VALUES (…)`. -/
def insertHdTable (row : TableRow) : EngStep := fun s =>
  .ok { s with hd_tables := s.hd_tables ++ [row] }

/-- The `hd_fields` rows inserted for a table: one row per metadata entry,
with fixed type `'Txt'`. -/
def fieldRowsOf (tbl : String) (metadata : List FieldMeta) : List FieldRow :=
  metadata.map (fun m =>
    { fld___id := m.fld___id, id := m.id, label := m.label, tbl := tbl, type := "Txt" })

/-- The `temp_metadata` round trip of `_insert_table_metadata` (create
temp table, insert each metadata entry, `INSERT INTO hd_fields … SELECT
… FROM temp_metadata`, drop temp table): its observable effect is the
batch insert of `fieldRowsOf`. -/
def insertHdFieldsBatch (tbl : String) (metadata : List FieldMeta) : EngStep := fun s =>
  .ok { s with hd_fields := s.hd_fields ++ fieldRowsOf tbl metadata }

/-- `INSERT INTO hd_fields (fld___id, id, label, tbl, type) VALUES (…)`. -/
def insertHdField (row : FieldRow) : EngStep := fun s =>
  .ok { s with hd_fields := s.hd_fields ++ [row] }

/-- `DELETE FROM hd_tables WHERE id = tbl`. -/
def deleteHdTable (tbl : String) : EngStep := fun s =>
  .ok { s with hd_tables := s.hd_tables.filter (fun r => r.id ≠ tbl) }

/-- `DELETE FROM hd_fields WHERE tbl = tbl`. -/
def deleteHdFieldsOfTable (tbl : String) : EngStep := fun s =>
  .ok { s with hd_fields := s.hd_fields.filter (fun r => r.tbl ≠ tbl) }

/-- `DELETE FROM hd_fields WHERE fld___id = ? AND tbl = ?`. -/
def deleteHdFieldById (fld tbl : String) : EngStep := fun s =>
  .ok { s with hd_fields := s.hd_fields.filter (fun r => ¬ (r.fld___id = fld ∧ r.tbl = tbl)) }

/-- `UPDATE hd_tables SET ncol = ncol + d WHERE id = tbl` (a no-op on
rows of other tables; succeeds even when no row matches). -/
def updateNcol (tbl : String) (d : Int) : EngStep := fun s =>
  .ok { s with hd_tables := s.hd_tables.map (fun r =>
    if r.id = tbl then { r with ncol := r.ncol + d } else r) }

/-- Run a list of statements in order, stopping at the first engine
error (the Python `try` body). -/
def execSteps : List EngStep → DbState → Except EngErr DbState
  | [], s => .ok s
  | f :: fs, s =>
    match f s with
    | .ok s2 => execSteps fs s2
    | .error e => .error e

/-- The shared transactional shape of every schema operation:
`BEGIN TRANSACTION;` → statements → `COMMIT;`, and on an engine error
`ROLLBACK;` followed by re-raising the typed exception `mkErr e`. -/
def runTxnOp (steps : List EngStep) (mkErr : EngErr → HdExc) (c : Conn) :
    Except HdExc Unit × Conn :=
  match execSteps steps (beginTxn c).working with
  | .ok s => (.ok (), commitTxn { beginTxn c with txn := some s })
  | .error e => (.error (mkErr e), rollbackTxn (beginTxn c))

/-- A source dataframe as the schema operations consume it: its column
labels and its row count (cell contents do not influence the catalog
bookkeeping; the cell-level cleaning is modelled by `clean_dataframe`). -/
structure DataFrame where
  cols : List String
  nrows : Int
deriving Repr, DecidableEq

/-- The `column` dictionary consumed by `add_column`/`delete_column`:
`{slug, fld___id, headerName, type}`. -/
structure ColumnSpec where
  slug : String
  fld___id : String
  headerName : String
  type : String
deriving Repr, DecidableEq

/-- `create_table(org, db, tbl, df)`: generate field metadata, rename the
columns to the generated ids and clean the frame (shape-preserving), then
inside one transaction create the physical table, bulk-load the rows, and
insert one `hd_tables` row and one `hd_fields` row per column.  A
`duckdb.CatalogException` becomes `TableExistsError`, any other engine
error a `QueryError`.  `uuidAt`/`suffixAt` supply the random draws of
`generate_field_metadata`. -/
def create_table (c : Conn) (org db tbl : String) (df : DataFrame)
    (uuidAt suffixAt : Nat → String) : Except HdExc Unit × Conn :=
  let metadata := generate_field_metadata df.cols uuidAt suffixAt
  let renamedCols := metadata.map (fun m => m.id)
  runTxnOp
    [ createPhysTable (qualName org db tbl) renamedCols,
      insertPhysRows (qualName org db tbl) df.nrows,
      insertHdTable { id := tbl, label := tbl, nrow := df.nrows,
                      ncol := (renamedCols.length : Int) },
      insertHdFieldsBatch tbl metadata ]
    (fun e => match e with
      | .catalog => tableExistsExc tbl
      | .generic => queryErrorExc ("Error creating table: " ++ tbl))
    c

/-- `drop_table(org, db, tbl)`: inside one transaction drop the physical
table (`IF EXISTS`) and delete its `hd_tables` and `hd_fields` rows; any
engine error becomes a `QueryError`. -/
def drop_table (c : Conn) (org db tbl : String) : Except HdExc Unit × Conn :=
  runTxnOp
    [ dropPhysTableIfExists (qualName org db tbl),
      deleteHdTable tbl,
      deleteHdFieldsOfTable tbl ]
    (fun _ => queryErrorExc ("Error deleting table: " ++ tbl))
    c

/-- `add_column(org, db, tbl, column)`: inside one transaction add the
physical column, increment `ncol` in `hd_tables`, insert one `hd_fields`
row; any engine error becomes a `QueryError`.  Returns `True` on
success. -/
def add_column (c : Conn) (org db tbl : String) (column : ColumnSpec) :
    Except HdExc Bool × Conn :=
  let r := runTxnOp
    [ alterAddColumn (qualName org db tbl) column.slug,
      updateNcol tbl 1,
      insertHdField { fld___id := column.fld___id, id := column.slug,
                      label := column.headerName, tbl := tbl, type := column.type } ]
    (fun _ => queryErrorExc ("Error adding column: " ++ column.slug))
    c
  (r.1.map (fun _ => true), r.2)

/-- `delete_column(org, db, tbl, column)`: inside one transaction drop the
physical column, decrement `ncol` in `hd_tables`, delete the `hd_fields`
row matching `fld___id` and table; any engine error becomes a
`QueryError`.  Returns `True` on success. -/
def delete_column (c : Conn) (org db tbl : String) (column : ColumnSpec) :
    Except HdExc Bool × Conn :=
  let r := runTxnOp
    [ alterDropColumn (qualName org db tbl) column.slug,
      updateNcol tbl (-1),
      deleteHdFieldById column.fld___id tbl ]
    (fun _ => queryErrorExc ("Error deleting column: " ++ column.slug))
    c
  (r.1.map (fun _ => true), r.2)

/-- The record returned by `get_table_metadata`:
`{nrow, ncol, tbl_name}`. -/
structure TableMeta where
  nrow : Int
  ncol : Int
  tbl_name : String
deriving Repr, DecidableEq

/-- `get_table_metadata(org, db, tbl)`: run
`SELECT * FROM hd_tables WHERE id = ?`; when no row matches, raise
`QueryError("Table {tbl} not found")`, otherwise return the first row's
`{nrow, ncol, tbl_name}`. -/
def get_table_metadata (s : DbState) (tbl : String) : Except HdExc TableMeta :=
  let data := s.hd_tables.filter (fun r => r.id = tbl)
  match data with
  | [] => .error (queryErrorExc ("Table " ++ tbl ++ " not found"))
  | r :: _ => .ok { nrow := r.nrow, ncol := r.ncol, tbl_name := r.id }

/-! ## Theorems -/

lemma intercalate_singleton (s a : String) : String.intercalate s [a] = a := rfl

lemma is_doing_grouping_iff (p : FetchParams) :
    is_doing_grouping p = true ↔ p.group_keys.length < p.row_group_cols.length := by
  simp [is_doing_grouping]

/-- C1: when `len(row_group_cols) > len(group_keys)`, `build_select_sql`
returns the select clause naming the synthetic row key `rcd___id` and
exactly the data column `row_group_cols[len(group_keys)]`, and
`build_group_sql` groups by that same column; when `row_group_cols = []`,
`build_select_sql` returns `"SELECT *"` and `build_group_sql` returns
`""`. -/
theorem build_select_group_sql_spec (p : FetchParams) :
    (∀ h : p.group_keys.length < p.row_group_cols.length,
      build_select_sql p =
        "SELECT cast(uuid() as varchar) as rcd___id," ++
          p.row_group_cols.get ⟨p.group_keys.length, h⟩
      ∧ build_group_sql p =
        "GROUP BY \"" ++ p.row_group_cols.get ⟨p.group_keys.length, h⟩ ++ "\"")
    ∧ (p.row_group_cols = [] →
        build_select_sql p = "SELECT *" ∧ build_group_sql p = "") := by
  constructor
  · intro h
    have hg : is_doing_grouping p = true := (is_doing_grouping_iff p).mpr h
    constructor
    · simp [build_select_sql, hg, intercalate_singleton, List.getElem?_eq_getElem h]
    · simp [build_group_sql, hg, List.getElem?_eq_getElem h]
  · intro h
    have hg : is_doing_grouping p = false := by
      simp [is_doing_grouping, h]
    constructor
    · simp [build_select_sql, hg]
    · simp [build_group_sql, hg]

/-- Witness for C1 at concrete parameters: one grouping request and one
with no grouping columns. -/
theorem build_select_group_sql_spec_witness :
    (build_select_sql ⟨0, 10, none, none, ["country"], []⟩ =
      "SELECT cast(uuid() as varchar) as rcd___id,country"
    ∧ build_group_sql ⟨0, 10, none, none, ["country"], []⟩ = "GROUP BY \"country\"")
    ∧ (build_select_sql ⟨0, 10, none, none, [], []⟩ = "SELECT *"
    ∧ build_group_sql ⟨0, 10, none, none, [], []⟩ = "") := by
  refine ⟨?_, (build_select_group_sql_spec ⟨0, 10, none, none, [], []⟩).2 rfl⟩
  have h := (build_select_group_sql_spec ⟨0, 10, none, none, ["country"], []⟩).1
    (by decide)
  exact h

lemma buildWhereParts_eq_zipWith (rgc : List String) :
    ∀ (gk : List String) (idx : Nat), idx + gk.length ≤ rgc.length →
      buildWhereParts rgc gk idx = some (List.zipWith wherePart (rgc.drop idx) gk)
  | [], idx, _ => by simp [buildWhereParts]
  | key :: rest, idx, h => by
    have hidx : idx < rgc.length := by
      have := h; simp at this; omega
    have hrec := buildWhereParts_eq_zipWith rgc rest (idx + 1) (by simp at h ⊢; omega)
    simp only [buildWhereParts, List.get?_eq_getElem?, List.getElem?_eq_getElem hidx, hrec]
    rw [List.drop_eq_getElem_cons hidx]
    simp [List.zipWith]

/-- C3, counterexample to the claim as stated: for
`group_keys = ["US"]`, `row_group_cols = ["country","city"]`, the code
returns `" WHERE \"country\" = 'US'"` with a leading space, which is not
the claimed exact string `"WHERE \"country\" = 'US'"`. -/
theorem build_where_sql_no_leading_space_counterexample :
    build_where_sql ⟨0, 10, none, none, ["country", "city"], ["US"]⟩ =
      some " WHERE \"country\" = \x27US\x27"
    ∧ (" WHERE \"country\" = \x27US\x27" : String) ≠ "WHERE \"country\" = \x27US\x27" := by
  exact ⟨rfl, by decide⟩

/-- C3, amended: for every `FetchParams` with non-empty `group_keys`,
non-empty `row_group_cols` and `len(group_keys) ≤ len(row_group_cols)`,
`build_where_sql` returns `" WHERE "` (with a leading space) followed by
the AND-conjunction of `"row_group_cols[i]" = 'group_keys[i]'` over the
indices of `group_keys`, values taken literally; and it returns the empty
string whenever either list is empty. -/
theorem build_where_sql_spec (p : FetchParams)
    (hlen : p.group_keys.length ≤ p.row_group_cols.length) :
    (p.group_keys ≠ [] → p.row_group_cols ≠ [] →
      build_where_sql p = some (" WHERE " ++ String.intercalate " AND "
        (List.zipWith wherePart p.row_group_cols p.group_keys)))
    ∧ (p.group_keys = [] ∨ p.row_group_cols = [] → build_where_sql p = some "") := by
  constructor
  · intro hk hc
    have hk2 : p.group_keys.isEmpty = false := by
      cases hgk : p.group_keys with
      | nil => exact absurd hgk hk
      | cons a l => simp
    have hc2 : p.row_group_cols.isEmpty = false := by
      cases hrc : p.row_group_cols with
      | nil => exact absurd hrc hc
      | cons a l => simp
    have hparts := buildWhereParts_eq_zipWith p.row_group_cols p.group_keys 0
      (by omega)
    have hlp : 0 < (List.zipWith wherePart p.row_group_cols p.group_keys).length := by
      rw [List.length_zipWith]
      have h1 : 0 < p.group_keys.length := List.length_pos.mpr hk
      have h2 : 0 < p.row_group_cols.length := List.length_pos.mpr hc
      omega
    have hne : (List.zipWith wherePart p.row_group_cols p.group_keys).isEmpty = false := by
      cases hz : List.zipWith wherePart p.row_group_cols p.group_keys with
      | nil => rw [hz] at hlp; simp at hlp
      | cons a l => simp
    simp only [build_where_sql, hk2, hc2, Bool.or_self, Bool.false_eq_true,
      if_false, List.drop_zero] at *
    rw [hparts]
    simp [hne]
  · intro h
    rcases h with h | h
    · simp [build_where_sql, h]
    · simp [build_where_sql, h]

/-- Witness for C3 (amended) at the claim's concrete parameters. -/
theorem build_where_sql_spec_witness :
    build_where_sql ⟨0, 10, none, none, ["country", "city"], ["US"]⟩ =
      some (" WHERE " ++ String.intercalate " AND "
        [wherePart "country" "US"])
    ∧ build_where_sql ⟨0, 10, none, none, [], []⟩ = some "" := by
  constructor
  · exact (build_where_sql_spec ⟨0, 10, none, none, ["country", "city"], ["US"]⟩
      (by decide)).1 (by decide) (by decide)
  · exact (build_where_sql_spec ⟨0, 10, none, none, [], []⟩ (by decide)).2 (Or.inl rfl)

/-- C4: `build_order_sql` returns `""` when the sort expression is falsy
(`None`, or the empty string, which Python's `if not params.sort` treats
the same way); when grouping is active it splits the sort on commas,
strips each term, keeps the terms whose leading column name is among
`row_group_cols`, and orders by the kept term at index
`len(group_keys)` when one exists there; otherwise (no grouping, or no
kept term at that position) it passes the caller's sort expression
through unmodified.  The hypothesis that every comma-separated term has a
leading token rules out the inputs on which `part.split()[0]` raises
`IndexError`. -/
theorem build_order_sql_spec (p : FetchParams) :
    (p.sort = none ∨ p.sort = some "" → build_order_sql p = some "")
    ∧ (∀ s, p.sort = some s → s ≠ "" →
        (is_doing_grouping p = false → build_order_sql p = some ("ORDER BY " ++ s))
        ∧ (is_doing_grouping p = true →
          (∀ t ∈ (splitComma s).map pyStrip, (leadingWord t).isSome = true) →
          (∀ h : p.group_keys.length <
              (((splitComma s).map pyStrip).filter
                (orderPartKept p.row_group_cols)).length,
            build_order_sql p = some ("ORDER BY " ++
              (((splitComma s).map pyStrip).filter
                (orderPartKept p.row_group_cols)).get ⟨p.group_keys.length, h⟩))
          ∧ ((((splitComma s).map pyStrip).filter
                (orderPartKept p.row_group_cols)).length ≤ p.group_keys.length →
            build_order_sql p = some ("ORDER BY " ++ s)))) := by
  constructor
  · rintro (h | h) <;> simp [build_order_sql, h]
  · intro s hs hne
    constructor
    · intro hg
      simp [build_order_sql, hs, hne, hg]
    · intro hg hw
      have hall : ((splitComma s).map pyStrip).all
          (fun part => (leadingWord part).isSome) = true :=
        List.all_eq_true.mpr hw
      constructor
      · intro h
        have hcond : 0 < (((splitComma s).map pyStrip).filter
            (orderPartKept p.row_group_cols)).length ∧
            p.group_keys.length < (((splitComma s).map pyStrip).filter
            (orderPartKept p.row_group_cols)).length := ⟨by omega, h⟩
        simp only [build_order_sql, hs, hne, hg, hall, if_true, if_pos hcond]
        simp [List.getElem?_eq_getElem h]
      · intro h
        have hcond : ¬ (0 < (((splitComma s).map pyStrip).filter
            (orderPartKept p.row_group_cols)).length ∧
            p.group_keys.length < (((splitComma s).map pyStrip).filter
            (orderPartKept p.row_group_cols)).length) := by
          intro hc
          omega
        simp only [build_order_sql, hs, hne, hg, hall, if_true, if_neg hcond]
        simp

/-- Witness for C4: an absent sort, a grouped request picking the term at
index `len(group_keys)`, and an ungrouped pass-through. -/
theorem build_order_sql_spec_witness :
    build_order_sql ⟨0, 10, none, none, ["country"], []⟩ = some ""
    ∧ build_order_sql ⟨0, 10, some "country ASC, city DESC", none,
        ["country", "city"], ["US"]⟩ = some "ORDER BY city DESC"
    ∧ build_order_sql ⟨0, 10, some "other ASC", none, [], []⟩ =
        some "ORDER BY other ASC" := by
  refine ⟨(build_order_sql_spec ⟨0, 10, none, none, ["country"], []⟩).1 (Or.inl rfl),
    ?_, ?_⟩
  · have h := ((build_order_sql_spec ⟨0, 10, some "country ASC, city DESC", none,
      ["country", "city"], ["US"]⟩).2 "country ASC, city DESC" rfl (by decide)).2
      (by decide) (by decide)
    exact h.1 (by decide)
  · exact ((build_order_sql_spec ⟨0, 10, some "other ASC", none, [], []⟩).2
      "other ASC" rfl (by decide)).1 (by decide)

/-- C8: constructing a `FetchParams` whose `end_row ≤ start_row` is
rejected by validation — no `FetchParams` value is produced, so none can
reach the query builder or the execution gateway (the construction is a
pure function of the request, independent of any engine state); and every
successfully constructed `FetchParams` satisfies
`start_row < end_row` (and `start_row ≥ 0`). -/
theorem mkFetchParams_rejects_bad_window (sr er : Int) (sort : Option String)
    (fm : Option (List (String × FilterModel))) (rgc gk : List String) :
    (er ≤ sr → ∀ p, mkFetchParams sr er sort fm rgc gk ≠ .ok p)
    ∧ (∀ p, mkFetchParams sr er sort fm rgc gk = .ok p →
        p.start_row < p.end_row ∧ 0 ≤ p.start_row) := by
  unfold mkFetchParams
  constructor
  · intro hle p
    split_ifs with h1 h2 h3 <;> simp_all <;> omega
  · intro p hp
    split_ifs at hp with h1 h2 h3 <;>
      cases hp <;>
      exact ⟨by simp; omega, by simp; omega⟩

/-- Witness for C8: the window `(start_row, end_row) = (5, 3)` is
rejected, while `(0, 10)` yields a value with `start_row < end_row`. -/
theorem mkFetchParams_rejects_bad_window_witness :
    mkFetchParams 5 3 none none [] [] ≠ .ok ⟨5, 3, none, none, [], []⟩
    ∧ (FetchParams.mk 0 10 none none [] []).start_row <
        (FetchParams.mk 0 10 none none [] []).end_row := by
  constructor
  · exact (mkFetchParams_rejects_bad_window 5 3 none none [] []).1 (by decide) _
  · exact ((mkFetchParams_rejects_bad_window 0 10 none none [] []).2
      ⟨0, 10, none, none, [], []⟩ rfl).1

/-- C9: for every label other than the reserved row-key name,
`generate_field_id` returns `slug(label) ++ "_" ++ suffix`, where the
suffix is the 6-letter random draw; the reserved row-key column name
`"rcd___id"` maps to itself unchanged; label `"Name"` yields an id of
shape `name_[A-Za-z]{6}`; and the slug lower-cases, replaces runs of
characters outside `[a-z0-9_]` by a single `_`, and strips edge
separators. -/
theorem generate_field_id_spec (label suffix : String)
    (h6 : suffix.length = 6)
    (ha : suffix.data.all Char.isAlpha = true) :
    (label ≠ "rcd___id" →
      generate_field_id label suffix = slugify label ++ "_" ++ suffix)
    ∧ generate_field_id "rcd___id" suffix = "rcd___id"
    ∧ (∃ suf, suf.length = 6 ∧ suf.data.all Char.isAlpha = true ∧
        generate_field_id "Name" suffix = "name_" ++ suf)
    ∧ slugify "Name" = "name"
    ∧ slugify "City of Birth" = "city_of_birth"
    ∧ slugify " --Hello,  World!-- " = "hello_world" := by
  refine ⟨?_, rfl, ⟨suffix, h6, ha, ?_⟩, rfl, rfl, rfl⟩
  · intro h
    simp [generate_field_id, h]
  · rfl

/-- Witness for C9 at the concrete suffix `"AbCdEf"`. -/
theorem generate_field_id_spec_witness :
    generate_field_id "Age" "AbCdEf" = slugify "Age" ++ "_" ++ "AbCdEf"
    ∧ generate_field_id "rcd___id" "AbCdEf" = "rcd___id" := by
  have h := generate_field_id_spec "Age" "AbCdEf" (by decide) (by decide)
  exact ⟨h.1 (by decide), h.2.1⟩

/-- C10: `clean_dataframe` maps every cell whose string form is `"nan"`,
`"NaN"` or `"None"` to the empty string — including cells holding those
genuine text values — so after cleaning a true missing value (`NaN` or
`None`) and those literal strings are indistinguishable. -/
theorem clean_dataframe_spec :
    (∀ c : Cell, (astypeStr c = "nan" ∨ astypeStr c = "NaN" ∨ astypeStr c = "None") →
      cleanCell c = "")
    ∧ (∀ c1 c2 : Cell,
        c1 ∈ [Cell.floatNaN, Cell.noneVal, Cell.text "nan", Cell.text "NaN",
          Cell.text "None"] →
        c2 ∈ [Cell.floatNaN, Cell.noneVal, Cell.text "nan", Cell.text "NaN",
          Cell.text "None"] →
        cleanCell c1 = cleanCell c2)
    ∧ clean_dataframe [[Cell.text "nan", Cell.floatNaN, Cell.text "None",
        Cell.noneVal, Cell.text "NaN", Cell.text "value"]] =
      [["", "", "", "", "", "value"]] := by
  refine ⟨?_, ?_, by decide⟩
  · intro c h
    rcases h with h | h | h <;> simp [cleanCell, replaceMissing, h]
  · intro c1 c2 h1 h2
    simp only [List.mem_cons, List.not_mem_nil, or_false] at h1 h2
    rcases h1 with h1 | h1 | h1 | h1 | h1 <;>
      rcases h2 with h2 | h2 | h2 | h2 | h2 <;> subst h1 <;> subst h2 <;> rfl

/-- Witness for C10: a genuine text cell `"nan"` cleans to `""` and is
indistinguishable from a true missing value after cleaning. -/
theorem clean_dataframe_spec_witness :
    cleanCell (Cell.text "nan") = ""
    ∧ cleanCell (Cell.text "None") = cleanCell Cell.floatNaN := by
  exact ⟨clean_dataframe_spec.1 (Cell.text "nan") (Or.inl rfl),
    clean_dataframe_spec.2.1 (Cell.text "None") Cell.floatNaN (by decide) (by decide)⟩

/-- A database with no physical tables and an empty catalog. -/
def emptyDb : DbState :=
  { phys := fun _ => none, hd_tables := [], hd_fields := [] }

/-- C2, counterexample to the claim as stated: on a catalog with no
matching `hd_tables` row, `get_table_metadata` raises `QueryError` —
whose place in the spec's section-7 taxonomy is the generic `QueryError`
entry, not the `NotFound` entry (no exception class of `exceptions.py`
maps to `NotFound`). -/
theorem get_table_metadata_notfound_counterexample :
    get_table_metadata emptyDb "users" =
      .error { kind := .queryError, message := "Query Error: Table users not found" }
    ∧ specKindOf HdExcKind.queryError ≠ SpecErrKind.notFound := by
  exact ⟨rfl, by decide⟩

/-- C2, amended: `get_table_metadata` returns the matching row's
`{nrow, ncol, tbl_name}` record, and when no `hd_tables` row has the
given table id it fails by raising `QueryError` with the distinguishing
message `"Table {tbl} not found"` (the code has no dedicated NotFound
class; the lookup miss is signalled through `QueryError`). -/
theorem get_table_metadata_spec (s : DbState) (tbl : String) :
    (s.hd_tables.filter (fun q => q.id = tbl) = [] →
      get_table_metadata s tbl =
        .error (queryErrorExc ("Table " ++ tbl ++ " not found")))
    ∧ (∀ r rest, s.hd_tables.filter (fun q => q.id = tbl) = r :: rest →
        get_table_metadata s tbl = .ok { nrow := r.nrow, ncol := r.ncol, tbl_name := r.id }
        ∧ r.id = tbl) := by
  constructor
  · intro h
    simp [get_table_metadata, h]
  · intro r rest h
    refine ⟨by simp [get_table_metadata, h], ?_⟩
    have hm : r ∈ s.hd_tables.filter (fun q => q.id = tbl) := by
      rw [h]; exact List.mem_cons_self _ _
    exact of_decide_eq_true (List.mem_filter.mp hm).2

/-- Witness for C2 (amended): a present table yields its record, a
missing table the not-found `QueryError`. -/
theorem get_table_metadata_spec_witness :
    get_table_metadata ⟨fun _ => none, [⟨"users", "users", 3, 2⟩], []⟩ "users" =
      .ok { nrow := 3, ncol := 2, tbl_name := "users" }
    ∧ get_table_metadata ⟨fun _ => none, [⟨"users", "users", 3, 2⟩], []⟩ "ghost" =
      .error (queryErrorExc "Table ghost not found") := by
  constructor
  · exact ((get_table_metadata_spec ⟨fun _ => none, [⟨"users", "users", 3, 2⟩], []⟩
      "users").2 ⟨"users", "users", 3, 2⟩ [] (by decide)).1
  · exact (get_table_metadata_spec ⟨fun _ => none, [⟨"users", "users", 3, 2⟩], []⟩
      "ghost").1 (by decide)

lemma runTxnOp_error (steps : List EngStep) (mkErr : EngErr → HdExc) (c : Conn)
    (e : HdExc) (c2 : Conn) (h : runTxnOp steps mkErr c = (.error e, c2)) :
    c2.committed = c.committed ∧ c2.txn = none ∧ ∃ ee, e = mkErr ee := by
  unfold runTxnOp at h
  cases hx : execSteps steps (beginTxn c).working with
  | ok s => rw [hx] at h; simp at h
  | error ee =>
    rw [hx] at h
    rw [Prod.mk.injEq] at h
    obtain ⟨h1, h2⟩ := h
    injection h1 with h1
    subst h2
    exact ⟨rfl, rfl, ee, h1.symm⟩

lemma runTxnOpBool_error (steps : List EngStep) (mkErr : EngErr → HdExc) (c : Conn)
    (e : HdExc) (c2 : Conn)
    (h : ((runTxnOp steps mkErr c).1.map (fun _ => true),
          (runTxnOp steps mkErr c).2) = (.error e, c2)) :
    c2.committed = c.committed ∧ c2.txn = none ∧ ∃ ee, e = mkErr ee := by
  rw [Prod.mk.injEq] at h
  obtain ⟨h1, h2⟩ := h
  cases hx : (runTxnOp steps mkErr c).1 with
  | ok a => rw [hx] at h1; simp [Except.map] at h1
  | error ee =>
    rw [hx] at h1
    simp only [Except.map] at h1
    injection h1 with h1
    subst h1
    exact runTxnOp_error steps mkErr c ee c2 (by rw [← hx, ← h2])

/-- C6: every schema operation (`create_table`, `drop_table`,
`add_column`, `delete_column`) is the transactional sequence
`BEGIN` → physical DDL/DML → catalog updates → `COMMIT` (embedded in the
operations' definitions through `runTxnOp`); whenever the engine reports
an error mid-operation, the operation issues `ROLLBACK` and re-raises a
typed library error, so the committed database — physical tables and the
`hd_tables`/`hd_fields` catalog alike — is exactly what it was before
the operation, and no transaction is left open. -/
theorem schema_ops_atomic_on_failure (c : Conn) (org db tbl : String)
    (df : DataFrame) (uuidAt suffixAt : Nat → String) (column : ColumnSpec) :
    (∀ e c2, create_table c org db tbl df uuidAt suffixAt = (.error e, c2) →
      c2.committed = c.committed ∧ c2.txn = none
      ∧ (e.kind = .tableExistsError ∨ e.kind = .queryError))
    ∧ (∀ e c2, drop_table c org db tbl = (.error e, c2) →
      c2.committed = c.committed ∧ c2.txn = none ∧ e.kind = .queryError)
    ∧ (∀ e c2, add_column c org db tbl column = (.error e, c2) →
      c2.committed = c.committed ∧ c2.txn = none ∧ e.kind = .queryError)
    ∧ (∀ e c2, delete_column c org db tbl column = (.error e, c2) →
      c2.committed = c.committed ∧ c2.txn = none ∧ e.kind = .queryError) := by
  refine ⟨?_, ?_, ?_, ?_⟩
  · intro e c2 h
    obtain ⟨h1, h2, ee, h3⟩ := runTxnOp_error _ _ _ _ _ h
    refine ⟨h1, h2, ?_⟩
    subst h3
    cases ee
    · exact Or.inl rfl
    · exact Or.inr rfl
  · intro e c2 h
    obtain ⟨h1, h2, ee, h3⟩ := runTxnOp_error _ _ _ _ _ h
    exact ⟨h1, h2, by subst h3; rfl⟩
  · intro e c2 h
    obtain ⟨h1, h2, ee, h3⟩ := runTxnOpBool_error _ _ _ _ _ h
    exact ⟨h1, h2, by subst h3; rfl⟩
  · intro e c2 h
    obtain ⟨h1, h2, ee, h3⟩ := runTxnOpBool_error _ _ _ _ _ h
    exact ⟨h1, h2, by subst h3; rfl⟩

/-- Witness for C6: creating a table whose physical name already exists
fails with the typed `TableExistsError` and leaves the committed state
untouched. -/
theorem schema_ops_atomic_on_failure_witness :
    create_table
      ⟨{ phys := fun n => if n = qualName "o" "d" "t" then some ⟨[], 0⟩ else none,
         hd_tables := [], hd_fields := [] }, none⟩
      "o" "d" "t" ⟨["Name"], 1⟩ (fun _ => "u") (fun _ => "abcdef") =
      (.error (tableExistsExc "t"),
       ⟨{ phys := fun n => if n = qualName "o" "d" "t" then some ⟨[], 0⟩ else none,
          hd_tables := [], hd_fields := [] }, none⟩)
    ∧ (tableExistsExc "t").kind = .tableExistsError := by
  constructor
  · rfl
  · have h := (schema_ops_atomic_on_failure
      ⟨{ phys := fun n => if n = qualName "o" "d" "t" then some ⟨[], 0⟩ else none,
         hd_tables := [], hd_fields := [] }, none⟩
      "o" "d" "t" ⟨["Name"], 1⟩ (fun _ => "u") (fun _ => "abcdef")
      ⟨"c", "c", "c", "c"⟩).1 (tableExistsExc "t")
      ⟨{ phys := fun n => if n = qualName "o" "d" "t" then some ⟨[], 0⟩ else none,
         hd_tables := [], hd_fields := [] }, none⟩ rfl
    rcases h.2.2 with hk | hk
    · exact hk
    · exact absurd hk (by decide)

lemma generateFieldMetadataFrom_length (cols : List String) :
    ∀ (i : Nat) (u sfx : Nat → String),
      (generateFieldMetadataFrom cols i u sfx).length = cols.length := by
  induction cols with
  | nil => intro i u sfx; rfl
  | cons c rest ih =>
    intro i u sfx
    simp [generateFieldMetadataFrom, ih]

lemma generateFieldMetadataFrom_labels (cols : List String) :
    ∀ (i : Nat) (u sfx : Nat → String),
      (generateFieldMetadataFrom cols i u sfx).map (fun m => m.label) = cols := by
  induction cols with
  | nil => intro i u sfx; rfl
  | cons c rest ih =>
    intro i u sfx
    simp [generateFieldMetadataFrom, ih]

lemma generate_field_metadata_length (cols : List String) (u sfx : Nat → String) :
    (generate_field_metadata cols u sfx).length = cols.length :=
  generateFieldMetadataFrom_length cols 0 u sfx

lemma generate_field_metadata_labels (cols : List String) (u sfx : Nat → String) :
    (generate_field_metadata cols u sfx).map (fun m => m.label) = cols :=
  generateFieldMetadataFrom_labels cols 0 u sfx

/-- C5: a successful `create_table` on a dataset with `N` columns and `R`
rows appends to `hd_fields` exactly the `N` generated field rows — one
per input column, in order, each owned by the new table — and appends to
`hd_tables` exactly one row whose `ncol` is `N` and whose `nrow` is
`R`. -/
theorem create_table_catalog_rows (c : Conn) (hc : c.txn = none)
    (org db tbl : String) (df : DataFrame) (uuidAt suffixAt : Nat → String)
    (c2 : Conn)
    (h : create_table c org db tbl df uuidAt suffixAt = (.ok (), c2)) :
    c2.committed.hd_fields = c.committed.hd_fields ++
        fieldRowsOf tbl (generate_field_metadata df.cols uuidAt suffixAt)
    ∧ (fieldRowsOf tbl (generate_field_metadata df.cols uuidAt suffixAt)).length
        = df.cols.length
    ∧ (fieldRowsOf tbl (generate_field_metadata df.cols uuidAt suffixAt)).map
        (fun f => f.label) = df.cols
    ∧ (∀ f ∈ fieldRowsOf tbl (generate_field_metadata df.cols uuidAt suffixAt),
        f.tbl = tbl)
    ∧ c2.committed.hd_tables = c.committed.hd_tables ++
        [{ id := tbl, label := tbl, nrow := df.nrows,
           ncol := (df.cols.length : Int) }]
    ∧ c2.txn = none := by
  have hlen : ((generate_field_metadata df.cols uuidAt suffixAt).map
      (fun m => m.id)).length = df.cols.length := by
    rw [List.length_map, generate_field_metadata_length]
  cases hphys : c.committed.phys (qualName org db tbl) with
  | some t =>
    exfalso
    simp [create_table, runTxnOp, execSteps, beginTxn, Conn.working, hc,
      createPhysTable, hphys] at h
  | none =>
    simp only [create_table, runTxnOp, execSteps, beginTxn, Conn.working, hc,
      Option.getD_none, Option.getD_some, createPhysTable, insertPhysRows, insertHdTable,
      insertHdFieldsBatch, commitTxn, hphys, if_pos, if_true, eq_self_iff_true,
      if_true] at h
    rw [Prod.mk.injEq] at h
    obtain ⟨-, h2⟩ := h
    subst h2
    refine ⟨rfl, ?_, ?_, ?_, ?_, rfl⟩
    · rw [fieldRowsOf, List.length_map, generate_field_metadata_length]
    · rw [fieldRowsOf, List.map_map]
      exact generate_field_metadata_labels df.cols uuidAt suffixAt
    · intro f hf
      rw [fieldRowsOf, List.mem_map] at hf
      obtain ⟨m, -, hm⟩ := hf
      rw [← hm]
    · rw [hlen]

/-- Witness for C5: creating `users` from a 2-column, 3-row dataset on a
fresh connection appends one `hd_tables` row `{ncol := 2, nrow := 3}` and
two `hd_fields` rows labelled by the input columns. -/
theorem create_table_catalog_rows_witness :
    (create_table ⟨emptyDb, none⟩ "o" "d" "users" ⟨["Name", "Age"], 3⟩
        (fun _ => "u") (fun _ => "abcdef")).2.committed.hd_tables =
      [{ id := "users", label := "users", nrow := 3, ncol := 2 }]
    ∧ (create_table ⟨emptyDb, none⟩ "o" "d" "users" ⟨["Name", "Age"], 3⟩
        (fun _ => "u") (fun _ => "abcdef")).2.committed.hd_fields.length = 2
    ∧ (fieldRowsOf "users" (generate_field_metadata ["Name", "Age"]
        (fun _ => "u") (fun _ => "abcdef"))).map (fun f => f.label) =
      ["Name", "Age"] := by
  have h := create_table_catalog_rows ⟨emptyDb, none⟩ rfl "o" "d" "users"
    ⟨["Name", "Age"], 3⟩ (fun _ => "u") (fun _ => "abcdef")
    (create_table ⟨emptyDb, none⟩ "o" "d" "users" ⟨["Name", "Age"], 3⟩
      (fun _ => "u") (fun _ => "abcdef")).2 rfl
  refine ⟨?_, ?_, h.2.2.1⟩
  · rw [h.2.2.2.2.1]; rfl
  · rw [h.1]; simp [h.2.1, emptyDb]

lemma updateNcol_add_cancel (l : List TableRow) (tbl : String) :
    (l.map (fun r => if r.id = tbl then { r with ncol := r.ncol + 1 } else r)).map
      (fun r => if r.id = tbl then { r with ncol := r.ncol + (-1) } else r) = l := by
  rw [List.map_map]
  have hfun : ((fun r : TableRow => if r.id = tbl then { r with ncol := r.ncol + (-1) } else r) ∘
      (fun r : TableRow => if r.id = tbl then { r with ncol := r.ncol + 1 } else r)) = id := by
    funext r
    cases r with
    | mk id label nrow ncol =>
      by_cases hid : id = tbl
      · simp [Function.comp, hid] <;> omega
      · simp [Function.comp, hid]
  rw [hfun, List.map_id]

lemma filter_matching_after_delete (l : List FieldRow) (fld tbl : String) :
    (l.filter (fun r => ¬ (r.fld___id = fld ∧ r.tbl = tbl))).filter
      (fun f => f.fld___id = fld ∧ f.tbl = tbl) = [] := by
  rw [List.filter_filter]
  rw [List.filter_eq_nil_iff]
  intro a _
  by_cases hp : a.fld___id = fld ∧ a.tbl = tbl <;> simp [hp]

/-- C7: after a successful `add_column`, running `delete_column` with the
same slug and field id succeeds, restores the `hd_tables` relation (in
particular the table's `ncol`) to exactly its state before the
`add_column`, and leaves no `hd_fields` row carrying that field id for
that table; no transaction is left open. -/
theorem add_then_delete_column (c : Conn) (hc : c.txn = none) (org db tbl : String)
    (column : ColumnSpec) (b : Bool) (c1 : Conn)
    (h : add_column c org db tbl column = (.ok b, c1)) :
    (delete_column c1 org db tbl column).1 = .ok true
    ∧ (delete_column c1 org db tbl column).2.committed.hd_tables =
        c.committed.hd_tables
    ∧ (delete_column c1 org db tbl column).2.committed.hd_fields.filter
        (fun f => f.fld___id = column.fld___id ∧ f.tbl = tbl) = []
    ∧ (delete_column c1 org db tbl column).2.txn = none := by
  cases hphys : c.committed.phys (qualName org db tbl) with
  | none =>
    exfalso
    simp [add_column, runTxnOp, execSteps, beginTxn, Conn.working, hc,
      alterAddColumn, hphys, Except.map] at h
  | some t =>
    by_cases hmem : column.slug ∈ t.cols
    · exfalso
      simp [add_column, runTxnOp, execSteps, beginTxn, Conn.working, hc,
        alterAddColumn, hphys, hmem, Except.map] at h
    · have hcontf : t.cols.contains column.slug = false := by
        simp [hmem]
      simp only [add_column, runTxnOp, execSteps, beginTxn, Conn.working, hc,
        Option.getD_some, Option.getD_none, alterAddColumn, updateNcol,
        insertHdField, commitTxn, hphys, hcontf, Except.map, Bool.false_eq_true,
        if_false, eq_self_iff_true, if_true] at h
      rw [Prod.mk.injEq] at h
      obtain ⟨-, h2⟩ := h
      subst h2
      have hcont2 : ((t.cols ++ [column.slug]).contains column.slug) = true := by
        simp
      simp only [delete_column, runTxnOp, execSteps, beginTxn, Conn.working,
        Option.getD_some, Option.getD_none, alterDropColumn, updateNcol,
        deleteHdFieldById, commitTxn, hcont2, Except.map, eq_self_iff_true,
        if_true, if_pos rfl]
      refine ⟨?_, ?_, ?_, ?_⟩ <;> first
        | rfl
        | trivial
        | exact updateNcol_add_cancel c.committed.hd_tables tbl
        | exact filter_matching_after_delete _ column.fld___id tbl

/-- A connection holding one physical table `o__d.t` with column `a`,
its `hd_tables` row and its `hd_fields` row. -/
def connW7 : Conn :=
  ⟨{ phys := fun n => if n = qualName "o" "d" "t" then some ⟨["a"], 5⟩ else none,
     hd_tables := [⟨"t", "t", 5, 1⟩],
     hd_fields := [⟨"f0", "a", "A", "t", "Txt"⟩] }, none⟩

/-- The column added and then deleted in the C7 witness. -/
def colW7 : ColumnSpec := ⟨"b", "fid", "B", "Txt"⟩

/-- Witness for C7: adding column `b` to table `t` and deleting it again
restores the `hd_tables` row `{ncol := 1}` and leaves no `hd_fields` row
with field id `fid`. -/
theorem add_then_delete_column_witness :
    (delete_column (add_column connW7 "o" "d" "t" colW7).2 "o" "d" "t" colW7).1 =
      .ok true
    ∧ (delete_column (add_column connW7 "o" "d" "t" colW7).2 "o" "d" "t"
        colW7).2.committed.hd_tables = [⟨"t", "t", 5, 1⟩]
    ∧ (delete_column (add_column connW7 "o" "d" "t" colW7).2 "o" "d" "t"
        colW7).2.committed.hd_fields.filter
        (fun f => f.fld___id = "fid" ∧ f.tbl = "t") = [] := by
  have h := add_then_delete_column connW7 rfl "o" "d" "t" colW7 true
    (add_column connW7 "o" "d" "t" colW7).2 rfl
  exact ⟨h.1, h.2.1, h.2.2.1⟩

end PyHdDb
